import Mathlib

set_option linter.dupNamespace false

/-!
Verification of the LifeBalance browser-driven UI verification harness.

Each Python scenario script is shallowly embedded as a Lean function from a
finite environment (one Boolean per fallible browser operation, telling
whether that operation succeeds in the given run) to a `Run`: the ordered
trace of browser-engine operations the script performs, together with the
exception (if any) the script propagates to its caller.

Conventions of the embedding:
- every browser operation appends its event to the trace when attempted;
  if the environment makes it fail, the corresponding Python exception is
  raised at that point (`Err.timeout` for bounded waits and click
  auto-waits, `Err.engine` for navigation, evaluation and screenshot
  failures);
- `try`/`except`/`finally` blocks are modelled by explicit case analysis on
  the intermediate `(trace, exception)` pair, exactly following the
  script's handler structure;
- `sync_playwright()` startup, `browser.launch`, context and page creation
  are modelled as infallible setup (a launch failure is fatal before any
  scenario step runs and no claim is about it); `browser.close()` itself is
  modelled as infallible;
- `print` calls are recorded with the static prefix of their format string;
- `page.on(...)` subscriptions are recorded as `onEvent` events.
-/

namespace LifeBalance

/-- The kind of Python exception a browser operation raises when it fails:
a bounded wait elapsing raises a timeout error, while navigation,
evaluation and screenshot failures are engine-level errors. -/
inductive Err where
  | timeout
  | engine
deriving DecidableEq, Repr

/-- One observable browser-engine operation performed by a scenario. -/
inductive Event where
  | goto (url : String)
  | sleep (seconds : Nat)
  | waitTimeout (ms : Nat)
  | waitVisible (target : String) (ms : Nat)
  | waitSelector (sel : String) (ms : Nat)
  | click (target : String)
  | focus (target : String)
  | reload
  | scrollIntoView (target : String)
  | evalJS (code : String)
  | screenshot (path : String)
  | print (msg : String)
  | onEvent (kind : String)
  | close
deriving DecidableEq, Repr

abbrev Trace := List Event

/-- The observable outcome of one scenario run: the event trace and the
exception, if any, that escapes the scenario's entry point. -/
structure Run where
  events : Trace
  exc : Option Err
deriving DecidableEq, Repr

/-- The URLs of the navigation events of a trace, in order. -/
def gotoUrls (t : Trace) : List String :=
  t.filterMap fun e => match e with
    | .goto u => some u
    | _ => none

/-- The paths of the screenshot events of a trace, in order. -/
def shots (t : Trace) : List String :=
  t.filterMap fun e => match e with
    | .screenshot p => some p
    | _ => none

/-- How many times `browser.close()` is invoked in a trace. -/
def closeCount (t : Trace) : Nat :=
  t.count Event.close

namespace verify_bypass

/-- Which fallible operations of `verification/verify_bypass.py` succeed in
a given run: the navigation, the two visibility expectations, and the two
screenshots. -/
structure Env where
  gotoFails : Bool
  testModeVisible : Bool
  safeVisible : Bool
  shotSuccessFails : Bool
  shotErrFails : Bool
deriving DecidableEq, Repr

/-- `verification/verify_bypass.py`, `run`: navigate to the login route
with the bypass flag, expect the "TEST MODE ENABLED" text within 10s, then
the "Safe to Spend" text (default 5s), screenshot on success; on any
exception screenshot `bypass_error.png` and re-raise; `finally` close. -/
def run (env : Env) : Run :=
  let t0 : Trace := [.print "Navigating to login with bypass...",
                     .goto "http://localhost:3000/#/login?bypass=true"]
  let body : Trace × Option Err :=
    if env.gotoFails then (t0, some .engine)
    else
      let t1 := t0 ++ [.print "Waiting for dashboard redirect...",
                       .waitVisible "TEST MODE ENABLED" 10000]
      if !env.testModeVisible then (t1, some .timeout)
      else
        let t2 := t1 ++ [.print "Test Mode Banner found!",
                         .waitVisible "Safe to Spend" 5000]
        if !env.safeVisible then (t2, some .timeout)
        else
          let t3 := t2 ++ [.screenshot "verification/bypass_success.png"]
          if env.shotSuccessFails then (t3, some .engine)
          else (t3 ++ [.print "Screenshot saved to verification/bypass_success.png"], none)
  let handled : Trace × Option Err :=
    match body with
    | (t, none) => (t, none)
    | (t, some e) =>
        let t := t ++ [.print "Error:", .screenshot "verification/bypass_error.png"]
        if env.shotErrFails then (t, some .engine) else (t, some e)
  ⟨handled.1 ++ [.close], handled.2⟩

end verify_bypass

namespace verify_member_management

/-- Which fallible operations of `tests/verify_member_management.py`
succeed in a given run: the two navigations and the two screenshots. -/
structure Env where
  gotoHomeFails : Bool
  shotInitialFails : Bool
  gotoSettingsFails : Bool
  shotSettingsFails : Bool
deriving DecidableEq, Repr

/-- `tests/verify_member_management.py`, `verify_member_management`:
navigate home, sleep, screenshot, navigate to settings, sleep, screenshot,
then close.  There is no `try`/`except`/`finally`: any exception propagates
immediately and `browser.close()` is skipped. -/
def verify_member_management (env : Env) : Run :=
  let t0 : Trace := [.goto "http://localhost:3000/#/"]
  if env.gotoHomeFails then ⟨t0, some .engine⟩ else
  let t1 := t0 ++ [.sleep 3, .print "Current URL:",
                   .screenshot "tests/initial_page.png"]
  if env.shotInitialFails then ⟨t1, some .engine⟩ else
  let t2 := t1 ++ [.print "Navigating to settings...",
                   .goto "http://localhost:3000/#/settings"]
  if env.gotoSettingsFails then ⟨t2, some .engine⟩ else
  let t3 := t2 ++ [.sleep 3, .print "Current URL:",
                   .screenshot "tests/settings_page.png"]
  if env.shotSettingsFails then ⟨t3, some .engine⟩ else
  ⟨t3 ++ [.close], none⟩

end verify_member_management

namespace verify_analytics

/-- Which fallible operations of `verification/verify_analytics.py`
succeed, whether the post-navigation URL ends in `/login`, and whether the
analytics button is visible. -/
structure Env where
  gotoFails : Bool
  urlEndsLogin : Bool
  btnVisible : Bool
  clickFails : Bool
  modalVisible : Bool
  shotModalFails : Bool
  shotDebugFails : Bool
  shotErrFails : Bool
deriving DecidableEq, Repr

/-- `verification/verify_analytics.py`, `verify_analytics_modal`: navigate
to the dashboard (outside any `try`), wait 5s, check for a `/login`
redirect (the `if` body only prints and falls through), then in a `try`
click the class-selected analytics button and wait for the modal, with a
debug screenshot when the button is invisible; `except` prints and
screenshots `error.png`; `browser.close()` is the last statement, not in a
`finally`. -/
def verify_analytics_modal (env : Env) : Run :=
  let t0 : Trace := [.goto "http://localhost:3000/"]
  if env.gotoFails then ⟨t0, some .engine⟩ else
  let t1 := t0 ++ [.waitTimeout 5000]
  let t1 := if env.urlEndsLogin
    then t1 ++ [.print "Redirected to login. Attempting to bypass or log in..."]
    else t1
  let body : Trace × Option Err :=
    if env.btnVisible then
      let t2 := t1 ++ [.print "Found Analytics button, clicking...",
                       .click "button.p-3.bg-white.text-brand-600"]
      if env.clickFails then (t2, some .timeout)
      else
        let t3 := t2 ++ [.waitVisible "Analytics" 5000]
        if !env.modalVisible then (t3, some .timeout)
        else
          let t4 := t3 ++ [.screenshot "verification/analytics_modal.png"]
          if env.shotModalFails then (t4, some .engine)
          else (t4 ++ [.print "Screenshot taken: analytics_modal.png"], none)
    else
      let t2 := t1 ++ [.print "Analytics button not found. Taking debug screenshot.",
                       .screenshot "verification/debug_dashboard.png"]
      if env.shotDebugFails then (t2, some .engine) else (t2, none)
  let handled : Trace × Option Err :=
    match body with
    | (t, none) => (t, none)
    | (t, some _) =>
        let t := t ++ [.print "Error:", .screenshot "verification/error.png"]
        if env.shotErrFails then (t, some .engine) else (t, none)
  match handled with
  | (t, none) => ⟨t ++ [.close], none⟩
  | (t, some e) => ⟨t, some e⟩

end verify_analytics

namespace verify_bypass_debug

/-- Which fallible operations of `verification/verify_bypass_debug.py`
succeed in a given run. -/
structure Env where
  gotoFails : Bool
  testModeVisible : Bool
  shotSuccessFails : Bool
  shotErrFails : Bool
deriving DecidableEq, Repr

/-- `verification/verify_bypass_debug.py`, `run`: like the bypass scenario
but with console/pageerror listeners, a fixed 5s settle wait, a 5s
visibility bound, a `bypass_debug_error.png` failure capture, and no
re-raise; `finally` close. -/
def run (env : Env) : Run :=
  let t0 : Trace := [.onEvent "console", .onEvent "pageerror",
                     .print "Navigating to login with bypass...",
                     .goto "http://localhost:3000/#/login?bypass=true"]
  let body : Trace × Option Err :=
    if env.gotoFails then (t0, some .engine)
    else
      let t1 := t0 ++ [.print "Waiting for dashboard redirect...",
                       .waitTimeout 5000, .print "Current URL:",
                       .waitVisible "TEST MODE ENABLED" 5000]
      if !env.testModeVisible then (t1, some .timeout)
      else
        let t2 := t1 ++ [.print "Test Mode Banner found!",
                         .screenshot "verification/bypass_success.png"]
        if env.shotSuccessFails then (t2, some .engine) else (t2, none)
  let handled : Trace × Option Err :=
    match body with
    | (t, none) => (t, none)
    | (t, some _) =>
        let t := t ++ [.print "Error:", .screenshot "verification/bypass_debug_error.png"]
        if env.shotErrFails then (t, some .engine) else (t, none)
  ⟨handled.1 ++ [.close], handled.2⟩

end verify_bypass_debug

namespace verify_export

/-- Which fallible operations of `verification/verify_export.py` succeed,
and whether the Export button becomes visible within its 10s bound. -/
structure Env where
  gotoFails : Bool
  evalFails : Bool
  clickBudgetFails : Bool
  clickHistoryFails : Bool
  exportVisible : Bool
  scrollFails : Bool
  shotMainFails : Bool
  shotErrFails : Bool
deriving DecidableEq, Repr

/-- `verification/verify_export.py`, `verify_export_feature`: in a `try`,
navigate, seed the test-mode flag, click the Budget link and History tab
by role and name, wait for the role/name-resolved Export button (10s),
scroll it into view and screenshot; `except` prints and attempts
`error_state.png` inside a nested guarded `try`; `finally` close.  No
exception ever propagates. -/
def verify_export_feature (env : Env) : Run :=
  let t0 : Trace := [.goto "http://localhost:3000"]
  let body : Trace × Option Err :=
    if env.gotoFails then (t0, some .engine)
    else
      let t1 := t0 ++ [.evalJS "sessionStorage.setItem(\x27LIFEBALANCE_TEST_MODE\x27, \x27true\x27)"]
      if env.evalFails then (t1, some .engine)
      else
        let t2 := t1 ++ [.click "role=link[name=Budget]"]
        if env.clickBudgetFails then (t2, some .timeout)
        else
          let t3 := t2 ++ [.click "role=button[name=History]"]
          if env.clickHistoryFails then (t3, some .timeout)
          else
            let t4 := t3 ++ [.waitVisible "role=button[name=Export]" 10000]
            if !env.exportVisible then (t4, some .timeout)
            else
              let t5 := t4 ++ [.scrollIntoView "role=button[name=Export]"]
              if env.scrollFails then (t5, some .timeout)
              else
                let t6 := t5 ++ [.screenshot "verification/verification.png"]
                if env.shotMainFails then (t6, some .engine)
                else (t6 ++ [.print "Screenshot taken successfully"], none)
  let handled : Trace :=
    match body with
    | (t, none) => t
    | (t, some _) =>
        let t := t ++ [.print "Verification failed:",
                       .screenshot "verification/error_state.png"]
        if env.shotErrFails
        then t ++ [.print "Failed to capture error state screenshot:"]
        else t
  ⟨handled ++ [.close], none⟩

end verify_export

namespace verify_habits

/-- Which fallible operations of `verification/verify_habits.py` succeed. -/
structure Env where
  gotoFails : Bool
  shotFails : Bool
deriving DecidableEq, Repr

/-- `verification/verify_habits.py`, `verify_habits`: in a `try`, navigate
to the habits route, sleep 5s, screenshot; the `except` only prints (no
capture) and swallows; `finally` close. -/
def verify_habits (env : Env) : Run :=
  let t0 : Trace := [.goto "http://localhost:3000/#/habits"]
  let body : Trace × Option Err :=
    if env.gotoFails then (t0, some .engine)
    else
      let t1 := t0 ++ [.sleep 5, .screenshot "verification/habits_mobile.png"]
      if env.shotFails then (t1, some .engine)
      else (t1 ++ [.print "Screenshot taken at verification/habits_mobile.png"], none)
  let handled : Trace :=
    match body with
    | (t, none) => t
    | (t, some _) => t ++ [.print "Error:"]
  ⟨handled ++ [.close], none⟩

end verify_habits

namespace verify_header

/-- Which fallible operations of `verification/verify_header.py` succeed:
the primary navigation, the fallback navigation, the header visibility
expectation, and the screenshot. -/
structure Env where
  goto3000Fails : Bool
  goto5173Fails : Bool
  headerVisible : Bool
  shotFails : Bool
deriving DecidableEq, Repr

/-- `verification/verify_header.py`, `run` (async; modelled sequentially
since every await completes before the next step): try the primary
navigation, and on any exception perform one fallback navigation to port
5173; then expect the `header` locator visible (default 5s) and
screenshot.  There is no `finally`: a failure after the `try`/`except`
propagates and skips `browser.close()`. -/
def run (env : Env) : Run :=
  let t0 : Trace := [.goto "http://localhost:3000"]
  let afterNav : Trace × Option Err :=
    if env.goto3000Fails then
      let t1 := t0 ++ [.goto "http://localhost:5173"]
      if env.goto5173Fails then (t1, some .engine) else (t1, none)
    else (t0, none)
  match afterNav with
  | (t, some e) => ⟨t, some e⟩
  | (t, none) =>
    let t1 := t ++ [.waitVisible "header" 5000]
    if !env.headerVisible then ⟨t1, some .timeout⟩ else
    let t2 := t1 ++ [.screenshot "verification/header_padding.png"]
    if env.shotFails then ⟨t2, some .engine⟩ else
    ⟨t2 ++ [.close], none⟩

end verify_header

namespace verify_settings

/-- Which fallible operations of `verification/verify_settings.py`
succeed. -/
structure Env where
  gotoFails : Bool
  shotFails : Bool
deriving DecidableEq, Repr

/-- `verification/verify_settings.py`, `verify_settings_cards`: navigate to
the settings route, sleep 3s, take a full-page screenshot, close.  No
`try`: any exception propagates and skips `browser.close()`. -/
def verify_settings_cards (env : Env) : Run :=
  let t0 : Trace := [.goto "http://localhost:3000/#/settings"]
  if env.gotoFails then ⟨t0, some .engine⟩ else
  let t1 := t0 ++ [.sleep 3, .screenshot "verification/settings_page.png"]
  if env.shotFails then ⟨t1, some .engine⟩ else
  ⟨t1 ++ [.close], none⟩

end verify_settings

namespace verify_shopping_list

/-- Which fallible operations of `verification/verify_shopping_list.py`
succeed, and whether the "Sign in" text appears within its 10s bound. -/
structure Env where
  gotoFails : Bool
  signInAppears : Bool
  shotLoginFails : Bool
  shotErrFails : Bool
deriving DecidableEq, Repr

/-- `verification/verify_shopping_list.py`, `run`: in a `try`, navigate to
the base URL, wait for the "Sign in" text (10s), screenshot the login
screen; the remaining lines are comments only.  `except` prints and
screenshots `error.png` without re-raising; `finally` close. -/
def run (env : Env) : Run :=
  let t0 : Trace := [.goto "http://localhost:3000/"]
  let body : Trace × Option Err :=
    if env.gotoFails then (t0, some .engine)
    else
      let t1 := t0 ++ [.waitSelector "text=Sign in" 10000]
      if !env.signInAppears then (t1, some .timeout)
      else
        let t2 := t1 ++ [.screenshot "verification/login_screen.png"]
        if env.shotLoginFails then (t2, some .engine)
        else (t2 ++ [.print "Login screen captured."], none)
  let handled : Trace × Option Err :=
    match body with
    | (t, none) => (t, none)
    | (t, some _) =>
        let t := t ++ [.print "Error:", .screenshot "verification/error.png"]
        if env.shotErrFails then (t, some .engine) else (t, none)
  ⟨handled.1 ++ [.close], handled.2⟩

end verify_shopping_list

namespace verify_test_cards

/-- Which fallible operations of `verification/verify_test_cards.py`
succeed. -/
structure Env where
  gotoFails : Bool
  shotFails : Bool
deriving DecidableEq, Repr

/-- `verification/verify_test_cards.py`, `verify_test_cards`: navigate to
the test-cards route, sleep 2s, take a full-page screenshot, close.  No
`try`: any exception propagates and skips `browser.close()`. -/
def verify_test_cards (env : Env) : Run :=
  let t0 : Trace := [.goto "http://localhost:3000/#/test-cards"]
  if env.gotoFails then ⟨t0, some .engine⟩ else
  let t1 := t0 ++ [.sleep 2, .screenshot "verification/test_cards_page.png"]
  if env.shotFails then ⟨t1, some .engine⟩ else
  ⟨t1 ++ [.close], none⟩

end verify_test_cards

namespace verify_toast

/-- Which fallible operations of `verification/verify_toast.py` succeed,
whether the body selector appears within 10s, and whether a toaster
container with the safe-area style is present (`count() > 0`). -/
structure Env where
  gotoFails : Bool
  bodyAppears : Bool
  hasToaster : Bool
  shotToasterFails : Bool
  shotGeneralFails : Bool
  shotErrFails : Bool
deriving DecidableEq, Repr

/-- `verification/verify_toast.py`, `verify_toast_position`: in a `try`,
navigate, wait for `body` (10s), sleep 5s, count the safe-area-styled
containers (a pure read), screenshot `toaster_verification.png` when one is
found (otherwise print diagnostics; the per-div style dump loop is pure
logging, summarised by its leading print), then a general screenshot;
`except` prints and screenshots `error.png` without re-raising; `finally`
close. -/
def verify_toast_position (env : Env) : Run :=
  let t0 : Trace := [.goto "http://localhost:3000"]
  let body : Trace × Option Err :=
    if env.gotoFails then (t0, some .engine)
    else
      let t1 := t0 ++ [.waitSelector "body" 10000]
      if !env.bodyAppears then (t1, some .timeout)
      else
        let t2 := t1 ++ [.sleep 5, .print "Found toaster containers with safe-area style."]
        let branch : Trace × Option Err :=
          if env.hasToaster then
            let t3 := t2 ++ [.print "Toaster container with correct style found!",
                             .screenshot "verification/toaster_verification.png"]
            if env.shotToasterFails then (t3, some .engine) else (t3, none)
          else
            (t2 ++ [.print "Toaster container NOT found with exact style string."], none)
        match branch with
        | (t, some e) => (t, some e)
        | (t, none) =>
            let t4 := t ++ [.screenshot "verification/general.png"]
            if env.shotGeneralFails then (t4, some .engine) else (t4, none)
  let handled : Trace × Option Err :=
    match body with
    | (t, none) => (t, none)
    | (t, some _) =>
        let t := t ++ [.print "Error:", .screenshot "verification/error.png"]
        if env.shotErrFails then (t, some .engine) else (t, none)
  ⟨handled.1 ++ [.close], handled.2⟩

end verify_toast

namespace verify_toolbar

/-- Which fallible operations of `verification/verify_toolbar.py` succeed:
navigation, the header selector wait, the two aria-labelled button
expectations, the click, the modal-text expectation, the reload, and the
two screenshots. -/
structure Env where
  gotoFails : Bool
  headerAppears : Bool
  safeBtnVisible : Bool
  clickFails : Bool
  breakdownVisible : Bool
  reloadFails : Bool
  pointsBtnVisible : Bool
  shotFails : Bool
  shotErrFails : Bool
deriving DecidableEq, Repr

/-- `verification/verify_toolbar.py`: the `__main__` block runs
`verify_toolbar_accessibility(page)` in a `try`; `except` prints and
screenshots `error_screenshot.png` (unguarded); `finally` close.  The
inner function subscribes to console/pageerror, navigates to the
test-toolbar route on port 3001, waits for `header` (default 30s), expects
and clicks the Safe-to-Spend button, expects the breakdown modal text,
reloads, expects the points button, focuses it, screenshots, prints. -/
def verify_toolbar_accessibility (env : Env) : Run :=
  let t0 : Trace := [.onEvent "console", .onEvent "pageerror",
                     .goto "http://localhost:3001/#/test-toolbar"]
  let body : Trace × Option Err :=
    if env.gotoFails then (t0, some .engine)
    else
      let t1 := t0 ++ [.waitSelector "header" 30000]
      if !env.headerAppears then (t1, some .timeout)
      else
        let t2 := t1 ++ [.waitVisible "button[aria-label=\x27View Safe to Spend details\x27]" 5000]
        if !env.safeBtnVisible then (t2, some .timeout)
        else
          let t3 := t2 ++ [.click "button[aria-label=\x27View Safe to Spend details\x27]"]
          if env.clickFails then (t3, some .timeout)
          else
            let t4 := t3 ++ [.waitVisible "Safe to Spend Breakdown" 5000]
            if !env.breakdownVisible then (t4, some .timeout)
            else
              let t5 := t4 ++ [.reload]
              if env.reloadFails then (t5, some .engine)
              else
                let t6 := t5 ++ [.waitVisible "button[aria-label=\x27View Rewards and Points breakdown\x27]" 5000]
                if !env.pointsBtnVisible then (t6, some .timeout)
                else
                  let t7 := t6 ++ [.focus "button[aria-label=\x27View Rewards and Points breakdown\x27]",
                                   .screenshot "verification/toolbar_accessibility.png"]
                  if env.shotFails then (t7, some .engine)
                  else (t7 ++ [.print "Screenshot saved to verification/toolbar_accessibility.png"], none)
  let handled : Trace × Option Err :=
    match body with
    | (t, none) => (t, none)
    | (t, some _) =>
        let t := t ++ [.print "Error:", .screenshot "verification/error_screenshot.png"]
        if env.shotErrFails then (t, some .engine) else (t, none)
  ⟨handled.1 ++ [.close], handled.2⟩

end verify_toolbar

namespace verify_transactions

/-- Which fallible operations of `verification/verify_transactions.py`
succeed, and whether the "Budget" text locator has at least one match
(`count() > 0`). -/
structure Env where
  gotoFails : Bool
  shotDebugFails : Bool
  budgetTextFound : Bool
  clickTextFails : Bool
  clickHrefFails : Bool
  historyAppears : Bool
  clickHistoryFails : Bool
  searchAppears : Bool
  shotHistFails : Bool
  shotErrFails : Bool
deriving DecidableEq, Repr

/-- `verification/verify_transactions.py`, `run`: subscribe to
console/pageerror, then in a `try` navigate to the login route with the
test flag, settle 5s, screenshot a debug capture, click the "Budget" text
locator if it has a match and otherwise fall back to the `a[href="/budget"]`
CSS selector, wait for and click the History button, wait for the search
input, screenshot; `except` prints and screenshots `error_state.png`
without re-raising; `browser.close()` is the last statement, not in a
`finally`. -/
def run (env : Env) : Run :=
  let t0 : Trace := [.onEvent "console", .onEvent "pageerror",
                     .goto "http://localhost:3000/#/login?test=true"]
  let body : Trace × Option Err :=
    if env.gotoFails then (t0, some .engine)
    else
      let t1 := t0 ++ [.waitTimeout 5000, .screenshot "verification/debug_console.png"]
      if env.shotDebugFails then (t1, some .engine)
      else
        let afterBudget : Trace × Option Err :=
          if env.budgetTextFound then
            let t2 := t1 ++ [.click "text=Budget"]
            if env.clickTextFails then (t2, some .timeout) else (t2, none)
          else
            let t2 := t1 ++ [.print "Budget link not found via text, trying icon/href",
                             .click "a[href=\"/budget\"]"]
            if env.clickHrefFails then (t2, some .timeout) else (t2, none)
        match afterBudget with
        | (t, some e) => (t, some e)
        | (t, none) =>
          let t3 := t ++ [.waitSelector "button:has-text(\"History\")" 30000]
          if !env.historyAppears then (t3, some .timeout)
          else
            let t4 := t3 ++ [.click "button:has-text(\"History\")"]
            if env.clickHistoryFails then (t4, some .timeout)
            else
              let t5 := t4 ++ [.waitSelector "input[placeholder=\"Search merchant or amount...\"]" 30000]
              if !env.searchAppears then (t5, some .timeout)
              else
                let t6 := t5 ++ [.screenshot "verification/transaction_history.png"]
                if env.shotHistFails then (t6, some .engine) else (t6, none)
  let handled : Trace × Option Err :=
    match body with
    | (t, none) => (t, none)
    | (t, some _) =>
        let t := t ++ [.print "Script failed:", .screenshot "verification/error_state.png"]
        if env.shotErrFails then (t, some .engine) else (t, none)
  match handled with
  | (t, none) => ⟨t ++ [.close], none⟩
  | (t, some e) => ⟨t, some e⟩

end verify_transactions

/-- Modelled from the spec: the page state observed through the browser
engine (URL plus rendered DOM surface); the engine itself is outside
`src/`, which only contains its callers. -/
structure PageState where
  url : String
  dom : List String
deriving DecidableEq, Repr

/-- Modelled from the spec: the state the Diagnostic Capture component
(spec section 4.5) acts on — the driven page together with the artifacts
written so far, in order. -/
structure CaptureState where
  page : PageState
  artifacts : List String
deriving DecidableEq, Repr

/-- Modelled from the spec: `captureScreenshot(session, path)` of the
Diagnostic Capture component (spec section 4.5), whose implementation (the
browser engine's screenshot operation) is outside `src/` — the scripts
only call it.  "Capture is side-effecting and idempotent per call —
repeated capture calls simply produce additional artifacts, never
overwrite implicitly": it appends one artifact at the given path and
leaves the page untouched. -/
def captureScreenshot (s : CaptureState) (path : String) : CaptureState :=
  { s with artifacts := s.artifacts ++ [path] }

end LifeBalance

namespace LifeBalance

/-- C1: the bypass scenario navigates to the bypass login URL, waits up to
10s for the "TEST MODE ENABLED" text, then waits for the "Safe to Spend"
text; a fully successful run captures `verification/bypass_success.png`
and propagates nothing, and every run in which either expectation fails
captures `verification/bypass_error.png` and re-raises the caught timeout
error. -/
theorem bypass_scenario_correct :
    ∀ env : verify_bypass.Env,
      Event.goto "http://localhost:3000/#/login?bypass=true" ∈ (verify_bypass.run env).events
      ∧ (env.gotoFails = false →
          Event.waitVisible "TEST MODE ENABLED" 10000 ∈ (verify_bypass.run env).events)
      ∧ (env.gotoFails = false ∧ env.testModeVisible = true →
          Event.waitVisible "Safe to Spend" 5000 ∈ (verify_bypass.run env).events)
      ∧ (env.gotoFails = false ∧ env.testModeVisible = true ∧ env.safeVisible = true ∧
          env.shotSuccessFails = false →
          Event.screenshot "verification/bypass_success.png" ∈ (verify_bypass.run env).events
          ∧ (verify_bypass.run env).exc = none)
      ∧ ((env.testModeVisible = false ∨ env.safeVisible = false) ∧ env.gotoFails = false ∧
          env.shotErrFails = false →
          Event.screenshot "verification/bypass_error.png" ∈ (verify_bypass.run env).events
          ∧ (verify_bypass.run env).exc = some Err.timeout) := by
  intro env
  obtain ⟨a, b, c, d, e⟩ := env
  revert a b c d e
  decide

/-- Witness for C1: with the first expectation failing and everything else
healthy, the error screenshot is captured and the timeout re-raised. -/
theorem bypass_scenario_correct_witness :
    Event.screenshot "verification/bypass_error.png" ∈
      (verify_bypass.run ⟨false, false, true, false, false⟩).events
    ∧ (verify_bypass.run ⟨false, false, true, false, false⟩).exc = some Err.timeout :=
  (bypass_scenario_correct ⟨false, false, true, false, false⟩).2.2.2.2
    ⟨Or.inl rfl, rfl, rfl⟩

/-- C2 counterexample: in `verify_member_management`, a run whose initial
navigation raises ends with the exception propagating and `browser.close()`
invoked zero times, not once — the script has no `finally`. -/
theorem session_release_skipped_on_navigation_failure :
    (verify_member_management.verify_member_management ⟨true, false, false, false⟩).exc =
      some Err.engine
    ∧ closeCount
        (verify_member_management.verify_member_management ⟨true, false, false, false⟩).events
        = 0 := by
  decide

/-- C2 amended: `browser.close()` runs exactly once on every outcome only
for the scenarios that close in a `finally` (bypass, bypass_debug, export,
habits, shopping list, toast, toolbar); member management, settings and
test cards close only on runs where no step raises; analytics closes
unless the pre-`try` navigation or the error-path screenshot fails;
header closes only on fully successful runs; transactions closes unless
its error-path screenshot fails. -/
theorem session_release_per_scenario :
    (∀ env : verify_bypass.Env, closeCount (verify_bypass.run env).events = 1)
    ∧ (∀ env : verify_bypass_debug.Env, closeCount (verify_bypass_debug.run env).events = 1)
    ∧ (∀ env : verify_export.Env,
        closeCount (verify_export.verify_export_feature env).events = 1)
    ∧ (∀ env : verify_habits.Env, closeCount (verify_habits.verify_habits env).events = 1)
    ∧ (∀ env : verify_shopping_list.Env, closeCount (verify_shopping_list.run env).events = 1)
    ∧ (∀ env : verify_toast.Env, closeCount (verify_toast.verify_toast_position env).events = 1)
    ∧ (∀ env : verify_toolbar.Env,
        closeCount (verify_toolbar.verify_toolbar_accessibility env).events = 1)
    ∧ (∀ env : verify_member_management.Env,
        env.gotoHomeFails = false ∧ env.shotInitialFails = false ∧
        env.gotoSettingsFails = false ∧ env.shotSettingsFails = false →
        closeCount (verify_member_management.verify_member_management env).events = 1)
    ∧ (∀ env : verify_analytics.Env,
        env.gotoFails = false ∧ env.shotErrFails = false →
        closeCount (verify_analytics.verify_analytics_modal env).events = 1)
    ∧ (∀ env : verify_header.Env,
        (env.goto3000Fails = false ∨ env.goto5173Fails = false) ∧
        env.headerVisible = true ∧ env.shotFails = false →
        closeCount (verify_header.run env).events = 1)
    ∧ (∀ env : verify_settings.Env,
        env.gotoFails = false ∧ env.shotFails = false →
        closeCount (verify_settings.verify_settings_cards env).events = 1)
    ∧ (∀ env : verify_test_cards.Env,
        env.gotoFails = false ∧ env.shotFails = false →
        closeCount (verify_test_cards.verify_test_cards env).events = 1)
    ∧ (∀ env : verify_transactions.Env,
        env.shotErrFails = false →
        closeCount (verify_transactions.run env).events = 1) := by
  refine ⟨?_, ?_, ?_, ?_, ?_, ?_, ?_, ?_, ?_, ?_, ?_, ?_, ?_⟩
  · intro env; obtain ⟨a, b, c, d, e⟩ := env; revert a b c d e; decide
  · intro env; obtain ⟨a, b, c, d⟩ := env; revert a b c d; decide
  · intro env; obtain ⟨a, b, c, d, e, f, g, h⟩ := env; revert a b c d e f g h; decide
  · intro env; obtain ⟨a, b⟩ := env; revert a b; decide
  · intro env; obtain ⟨a, b, c, d⟩ := env; revert a b c d; decide
  · intro env; obtain ⟨a, b, c, d, e, f⟩ := env; revert a b c d e f; decide
  · intro env; obtain ⟨a, b, c, d, e, f, g, h, i⟩ := env; revert a b c d e f g h i; decide
  · intro env; obtain ⟨a, b, c, d⟩ := env; revert a b c d; decide
  · intro env; obtain ⟨a, b, c, d, e, f, g, h⟩ := env; revert a b c d e f g h; decide
  · intro env; obtain ⟨a, b, c, d⟩ := env; revert a b c d; decide
  · intro env; obtain ⟨a, b⟩ := env; revert a b; decide
  · intro env; obtain ⟨a, b⟩ := env; revert a b; decide
  · intro env; obtain ⟨a, b, c, d, e, f, g, h, i, j⟩ := env; revert a b c d e f g h i j; decide

/-- Witness for the amended C2: a fully healthy member-management run
closes the browser exactly once. -/
theorem session_release_per_scenario_witness :
    closeCount
      (verify_member_management.verify_member_management ⟨false, false, false, false⟩).events
      = 1 :=
  session_release_per_scenario.2.2.2.2.2.2.2.1 ⟨false, false, false, false⟩
    ⟨rfl, rfl, rfl, rfl⟩

/-- C10: the export scenario never propagates an exception to its caller —
every exception in the body (including a failing error-path screenshot,
which is guarded by its own nested handler) is caught — and
`browser.close()` runs exactly once on every path via the `finally`
block. -/
theorem export_scenario_never_propagates :
    ∀ env : verify_export.Env,
      (verify_export.verify_export_feature env).exc = none
      ∧ closeCount (verify_export.verify_export_feature env).events = 1 := by
  intro env
  obtain ⟨a, b, c, d, e, f, g, h⟩ := env
  revert a b c d e f g h
  decide

/-- C3 counterexample: in the habits scenario, a run whose navigation
raises an engine-level exception ends with no error screenshot captured
and with the exception swallowed (nothing propagates), contradicting
"captures an error screenshot and then re-raises" for every scenario. -/
theorem error_swallowed_without_capture_in_habits :
    (verify_habits.verify_habits ⟨true, false⟩).exc = none
    ∧ shots (verify_habits.verify_habits ⟨true, false⟩).events = []
    ∧ (verify_habits.verify_habits ⟨true, false⟩).events =
        [Event.goto "http://localhost:3000/#/habits", Event.print "Error:", Event.close] := by
  decide

/-- C3 amended: only the bypass scenario captures an error screenshot and
re-raises on every exception its handler sees; analytics and export
capture an error screenshot but swallow the exception (export never
propagates anything), habits swallows without capturing, and member
management propagates without any capture. -/
theorem error_capture_policy_per_scenario :
    (∀ env : verify_bypass.Env,
        (env.gotoFails = true ∨ env.testModeVisible = false ∨ env.safeVisible = false ∨
          env.shotSuccessFails = true) ∧ env.shotErrFails = false →
        Event.screenshot "verification/bypass_error.png" ∈ (verify_bypass.run env).events
        ∧ (verify_bypass.run env).exc.isSome = true)
    ∧ (∀ env : verify_analytics.Env,
        env.gotoFails = false ∧ env.shotErrFails = false →
        (verify_analytics.verify_analytics_modal env).exc = none
        ∧ (env.btnVisible = true ∧ env.clickFails = true →
            Event.screenshot "verification/error.png" ∈
              (verify_analytics.verify_analytics_modal env).events))
    ∧ (∀ env : verify_export.Env,
        (verify_export.verify_export_feature env).exc = none
        ∧ (env.gotoFails = true →
            Event.screenshot "verification/error_state.png" ∈
              (verify_export.verify_export_feature env).events))
    ∧ (∀ env : verify_habits.Env,
        env.gotoFails = true →
        (verify_habits.verify_habits env).exc = none
        ∧ shots (verify_habits.verify_habits env).events = [])
    ∧ (∀ env : verify_member_management.Env,
        env.gotoHomeFails = true →
        (verify_member_management.verify_member_management env).exc = some Err.engine
        ∧ shots (verify_member_management.verify_member_management env).events = []) := by
  refine ⟨?_, ?_, ?_, ?_, ?_⟩
  · intro env; obtain ⟨a, b, c, d, e⟩ := env; revert a b c d e; decide
  · intro env; obtain ⟨a, b, c, d, e, f, g, h⟩ := env; revert a b c d e f g h; decide
  · intro env; obtain ⟨a, b, c, d, e, f, g, h⟩ := env; revert a b c d e f g h; decide
  · intro env; obtain ⟨a, b⟩ := env; revert a b; decide
  · intro env; obtain ⟨a, b, c, d⟩ := env; revert a b c d; decide

/-- Witness for the amended C3: a bypass run whose navigation raises
captures the error screenshot and re-raises. -/
theorem error_capture_policy_per_scenario_witness :
    Event.screenshot "verification/bypass_error.png" ∈
      (verify_bypass.run ⟨true, true, true, false, false⟩).events
    ∧ (verify_bypass.run ⟨true, true, true, false, false⟩).exc.isSome = true :=
  error_capture_policy_per_scenario.1 ⟨true, true, true, false, false⟩
    ⟨Or.inl rfl, rfl⟩

/-- C4 counterexample: the habits scenario captures no screenshot at all on
its failure path, and the analytics and shopping-list scenarios both write
their failure artifact to the same `verification/error.png` path, so one
scenario's failure evidence overwrites the other's. -/
theorem failure_capture_missing_and_colliding :
    shots (verify_habits.verify_habits ⟨true, false⟩).events = []
    ∧ shots (verify_analytics.verify_analytics_modal
        ⟨false, false, true, true, false, false, false, false⟩).events =
        ["verification/error.png"]
    ∧ shots (verify_shopping_list.run ⟨false, false, false, false⟩).events =
        ["verification/error.png"] := by
  decide

/-- C4 amended: bypass and export capture a screenshot on both the success
and the failure path under filenames that differ within the scenario;
habits captures nothing on its failure path; and the analytics,
shopping-list and toast failure paths all use the same
`verification/error.png` filename, so failure artifacts do not
disambiguate the scenario. -/
theorem screenshot_policy_per_scenario :
    (∀ env : verify_bypass.Env,
        (env.gotoFails = false ∧ env.testModeVisible = true ∧ env.safeVisible = true ∧
          env.shotSuccessFails = false →
          shots (verify_bypass.run env).events = ["verification/bypass_success.png"])
        ∧ (env.gotoFails = false ∧ env.testModeVisible = false ∧ env.shotErrFails = false →
          shots (verify_bypass.run env).events = ["verification/bypass_error.png"]))
    ∧ ("verification/bypass_success.png" ≠ "verification/bypass_error.png")
    ∧ (∀ env : verify_export.Env,
        (env.gotoFails = false ∧ env.evalFails = false ∧ env.clickBudgetFails = false ∧
          env.clickHistoryFails = false ∧ env.exportVisible = true ∧ env.scrollFails = false ∧
          env.shotMainFails = false →
          shots (verify_export.verify_export_feature env).events =
            ["verification/verification.png"])
        ∧ (env.gotoFails = false ∧ env.evalFails = false ∧ env.clickBudgetFails = false ∧
          env.clickHistoryFails = false ∧ env.exportVisible = false ∧ env.shotErrFails = false →
          shots (verify_export.verify_export_feature env).events =
            ["verification/error_state.png"]))
    ∧ ("verification/verification.png" ≠ "verification/error_state.png")
    ∧ (∀ env : verify_habits.Env,
        env.gotoFails = true → shots (verify_habits.verify_habits env).events = [])
    ∧ shots (verify_toast.verify_toast_position ⟨true, true, true, false, false, false⟩).events
        = ["verification/error.png"]
    ∧ shots (verify_analytics.verify_analytics_modal
          ⟨false, false, true, true, false, false, false, false⟩).events
        = shots (verify_shopping_list.run ⟨false, false, false, false⟩).events := by
  refine ⟨?_, by decide, ?_, by decide, ?_, by decide, by decide⟩
  · intro env; obtain ⟨a, b, c, d, e⟩ := env; revert a b c d e; decide
  · intro env; obtain ⟨a, b, c, d, e, f, g, h⟩ := env; revert a b c d e f g h; decide
  · intro env; obtain ⟨a, b⟩ := env; revert a b; decide

/-- Witness for the amended C4: the fully successful bypass run captures
exactly the success screenshot. -/
theorem screenshot_policy_per_scenario_witness :
    shots (verify_bypass.run ⟨false, true, true, false, false⟩).events =
      ["verification/bypass_success.png"] :=
  (screenshot_policy_per_scenario.1 ⟨false, true, true, false, false⟩).1
    ⟨rfl, rfl, rfl, rfl⟩

/-- C5 counterexample: in the analytics scenario, a run that is redirected
to `/login` still performs its interaction steps — the analytics button is
clicked — so the interaction steps are not skipped on the login
redirect. -/
theorem login_redirect_does_not_block :
    Event.print "Redirected to login. Attempting to bypass or log in..." ∈
      (verify_analytics.verify_analytics_modal
        ⟨false, true, true, false, true, false, false, false⟩).events
    ∧ Event.click "button.p-3.bg-white.text-brand-600" ∈
      (verify_analytics.verify_analytics_modal
        ⟨false, true, true, false, true, false, false, false⟩).events
    ∧ (verify_analytics.verify_analytics_modal
        ⟨false, true, true, false, true, false, false, false⟩).exc = none := by
  decide

/-- C5 amended: when the post-navigation URL ends in `/login`, the
analytics scenario only prints a notice and falls through — there is no
distinct Blocked outcome and the subsequent interaction steps are not
skipped (the button is clicked whenever it is visible); no error escapes
as long as the error-path screenshot succeeds, and a screenshot is still
captured on the non-interactive branch. -/
theorem login_redirect_logged_not_blocking :
    ∀ env : verify_analytics.Env,
      env.gotoFails = false ∧ env.urlEndsLogin = true →
      Event.print "Redirected to login. Attempting to bypass or log in..." ∈
        (verify_analytics.verify_analytics_modal env).events
      ∧ (env.btnVisible = true →
          Event.click "button.p-3.bg-white.text-brand-600" ∈
            (verify_analytics.verify_analytics_modal env).events)
      ∧ (env.shotErrFails = false →
          (verify_analytics.verify_analytics_modal env).exc = none)
      ∧ (env.btnVisible = false ∧ env.shotDebugFails = false →
          Event.screenshot "verification/debug_dashboard.png" ∈
            (verify_analytics.verify_analytics_modal env).events) := by
  intro env
  obtain ⟨a, b, c, d, e, f, g, h⟩ := env
  revert a b c d e f g h
  decide

/-- Witness for the amended C5: a redirected run with the button visible
prints the notice and clicks the button. -/
theorem login_redirect_logged_not_blocking_witness :
    Event.print "Redirected to login. Attempting to bypass or log in..." ∈
      (verify_analytics.verify_analytics_modal
        ⟨false, true, true, false, true, false, false, false⟩).events
    ∧ Event.click "button.p-3.bg-white.text-brand-600" ∈
      (verify_analytics.verify_analytics_modal
        ⟨false, true, true, false, true, false, false, false⟩).events :=
  ⟨(login_redirect_logged_not_blocking
      ⟨false, true, true, false, true, false, false, false⟩ ⟨rfl, rfl⟩).1,
   (login_redirect_logged_not_blocking
      ⟨false, true, true, false, true, false, false, false⟩ ⟨rfl, rfl⟩).2.1 rfl⟩

/-- C6 counterexample: a run in which the Export button never becomes
visible and a run with an engine-level evaluation failure take the same
generic handler and are indistinguishable in caller-visible outcome: both
propagate nothing and both produce exactly the `error_state.png` artifact,
so the timeout case is not a distinct NotFound outcome. -/
theorem export_timeout_not_distinct_outcome :
    (verify_export.verify_export_feature
        ⟨false, false, false, false, false, false, false, false⟩).exc = none
    ∧ (verify_export.verify_export_feature
        ⟨false, true, false, false, true, false, false, false⟩).exc = none
    ∧ shots (verify_export.verify_export_feature
        ⟨false, false, false, false, false, false, false, false⟩).events =
        ["verification/error_state.png"]
    ∧ shots (verify_export.verify_export_feature
        ⟨false, true, false, false, true, false, false, false⟩).events =
        ["verification/error_state.png"] := by
  decide

/-- C6 amended: the Export target is resolved by accessible role and name
and waited on for 10s; when it does not become visible the raised timeout
is caught — a debug screenshot `verification/error_state.png` is captured
before the scenario returns and no exception propagates — but by the same
generic handler used for engine-level errors, not as a distinct NotFound
outcome. -/
theorem export_notfound_handled_generically :
    ∀ env : verify_export.Env,
      (env.gotoFails = false ∧ env.evalFails = false ∧ env.clickBudgetFails = false ∧
        env.clickHistoryFails = false →
        Event.waitVisible "role=button[name=Export]" 10000 ∈
          (verify_export.verify_export_feature env).events)
      ∧ (env.gotoFails = false ∧ env.evalFails = false ∧ env.clickBudgetFails = false ∧
        env.clickHistoryFails = false ∧ env.exportVisible = false →
        (verify_export.verify_export_feature env).exc = none
        ∧ Event.screenshot "verification/error_state.png" ∈
            (verify_export.verify_export_feature env).events) := by
  intro env
  obtain ⟨a, b, c, d, e, f, g, h⟩ := env
  revert a b c d e f g h
  decide

/-- Witness for the amended C6: with the Export button never visible, the
wait is attempted, nothing propagates and the debug capture happens. -/
theorem export_notfound_handled_generically_witness :
    Event.waitVisible "role=button[name=Export]" 10000 ∈
      (verify_export.verify_export_feature
        ⟨false, false, false, false, false, false, false, false⟩).events
    ∧ (verify_export.verify_export_feature
        ⟨false, false, false, false, false, false, false, false⟩).exc = none :=
  ⟨(export_notfound_handled_generically
      ⟨false, false, false, false, false, false, false, false⟩).1 ⟨rfl, rfl, rfl, rfl⟩,
   ((export_notfound_handled_generically
      ⟨false, false, false, false, false, false, false, false⟩).2
      ⟨rfl, rfl, rfl, rfl, rfl⟩).1⟩

/-- C7: the one selector-candidate list in the code — the transactions
scenario's "Budget" target, tried first as a text locator and then as the
`a[href="/budget"]` CSS selector — is tried in list order and the first
matching candidate wins: when the text locator has a match it is clicked
and the CSS fallback is never evaluated, and the fallback is clicked only
when the text locator has no match. -/
theorem selector_fallback_short_circuits :
    ∀ env : verify_transactions.Env,
      (env.budgetTextFound = true →
        Event.click "a[href=\"/budget\"]" ∉ (verify_transactions.run env).events
        ∧ (env.gotoFails = false ∧ env.shotDebugFails = false →
            Event.click "text=Budget" ∈ (verify_transactions.run env).events))
      ∧ (env.budgetTextFound = false ∧ env.gotoFails = false ∧ env.shotDebugFails = false →
          Event.click "a[href=\"/budget\"]" ∈ (verify_transactions.run env).events
          ∧ Event.click "text=Budget" ∉ (verify_transactions.run env).events) := by
  intro env
  obtain ⟨a, b, c, d, e, f, g, h, i, j⟩ := env
  revert a b c d e f g h i j
  decide

/-- Witness for C7: with the text locator matching, the fallback selector
is never clicked while the text locator is. -/
theorem selector_fallback_short_circuits_witness :
    Event.click "a[href=\"/budget\"]" ∉
      (verify_transactions.run
        ⟨false, false, true, false, false, true, false, true, false, false⟩).events
    ∧ Event.click "text=Budget" ∈
      (verify_transactions.run
        ⟨false, false, true, false, false, true, false, true, false, false⟩).events :=
  ⟨((selector_fallback_short_circuits
      ⟨false, false, true, false, false, true, false, true, false, false⟩).1 rfl).1,
   ((selector_fallback_short_circuits
      ⟨false, false, true, false, false, true, false, true, false, false⟩).1 rfl).2
      ⟨rfl, rfl⟩⟩

/-- C8: screenshot capture does not mutate page state — two successive
`captureScreenshot` calls with distinct paths leave the page exactly as it
was, produce both artifacts, and extend the artifact list append-only, so
no existing artifact is overwritten. -/
theorem captureScreenshot_pure_append_only :
    ∀ (s : CaptureState) (p1 p2 : String), p1 ≠ p2 →
      (captureScreenshot (captureScreenshot s p1) p2).page = s.page
      ∧ (captureScreenshot (captureScreenshot s p1) p2).artifacts =
          s.artifacts ++ [p1, p2]
      ∧ p1 ∈ (captureScreenshot (captureScreenshot s p1) p2).artifacts
      ∧ p2 ∈ (captureScreenshot (captureScreenshot s p1) p2).artifacts := by
  intro s p1 p2 _
  refine ⟨rfl, by simp [captureScreenshot], by simp [captureScreenshot],
    by simp [captureScreenshot]⟩

/-- Witness for C8: two captures at distinct concrete paths on a concrete
state produce both artifacts and preserve the page. -/
theorem captureScreenshot_pure_append_only_witness :
    ("a.png" : String) ≠ "b.png"
    ∧ ((captureScreenshot (captureScreenshot ⟨⟨"http://localhost:3000", []⟩, []⟩ "a.png")
          "b.png").page = (⟨"http://localhost:3000", []⟩ : PageState)
        ∧ (captureScreenshot (captureScreenshot ⟨⟨"http://localhost:3000", []⟩, []⟩ "a.png")
          "b.png").artifacts = ([] : List String) ++ ["a.png", "b.png"]
        ∧ "a.png" ∈ (captureScreenshot
            (captureScreenshot ⟨⟨"http://localhost:3000", []⟩, []⟩ "a.png") "b.png").artifacts
        ∧ "b.png" ∈ (captureScreenshot
            (captureScreenshot ⟨⟨"http://localhost:3000", []⟩, []⟩ "a.png") "b.png").artifacts) :=
  ⟨by decide,
   captureScreenshot_pure_append_only ⟨⟨"http://localhost:3000", []⟩, []⟩ "a.png" "b.png"
     (by decide)⟩

/-- C9: in the header scenario a failing primary navigation is followed by
exactly one fallback navigation to port 5173 before the header wait, a
successful primary navigation is never followed by the fallback, and no
other scenario navigates anywhere beyond its fixed success-path navigation
sequence (in particular none retries a navigation on failure). -/
theorem header_fallback_navigation_unique :
    (∀ env : verify_header.Env, env.goto3000Fails = true →
        gotoUrls (verify_header.run env).events =
          ["http://localhost:3000", "http://localhost:5173"])
    ∧ (∀ env : verify_header.Env, env.goto3000Fails = false →
        gotoUrls (verify_header.run env).events = ["http://localhost:3000"])
    ∧ (∀ env : verify_header.Env, env.goto3000Fails = true ∧ env.goto5173Fails = false →
        (verify_header.run env).events.take 3 =
          [Event.goto "http://localhost:3000", Event.goto "http://localhost:5173",
           Event.waitVisible "header" 5000])
    ∧ (∀ env : verify_bypass.Env,
        (gotoUrls (verify_bypass.run env).events).isPrefixOf
          ["http://localhost:3000/#/login?bypass=true"] = true)
    ∧ (∀ env : verify_bypass_debug.Env,
        (gotoUrls (verify_bypass_debug.run env).events).isPrefixOf
          ["http://localhost:3000/#/login?bypass=true"] = true)
    ∧ (∀ env : verify_member_management.Env,
        (gotoUrls (verify_member_management.verify_member_management env).events).isPrefixOf
          ["http://localhost:3000/#/", "http://localhost:3000/#/settings"] = true)
    ∧ (∀ env : verify_analytics.Env,
        (gotoUrls (verify_analytics.verify_analytics_modal env).events).isPrefixOf
          ["http://localhost:3000/"] = true)
    ∧ (∀ env : verify_export.Env,
        (gotoUrls (verify_export.verify_export_feature env).events).isPrefixOf
          ["http://localhost:3000"] = true)
    ∧ (∀ env : verify_habits.Env,
        (gotoUrls (verify_habits.verify_habits env).events).isPrefixOf
          ["http://localhost:3000/#/habits"] = true)
    ∧ (∀ env : verify_settings.Env,
        (gotoUrls (verify_settings.verify_settings_cards env).events).isPrefixOf
          ["http://localhost:3000/#/settings"] = true)
    ∧ (∀ env : verify_shopping_list.Env,
        (gotoUrls (verify_shopping_list.run env).events).isPrefixOf
          ["http://localhost:3000/"] = true)
    ∧ (∀ env : verify_test_cards.Env,
        (gotoUrls (verify_test_cards.verify_test_cards env).events).isPrefixOf
          ["http://localhost:3000/#/test-cards"] = true)
    ∧ (∀ env : verify_toast.Env,
        (gotoUrls (verify_toast.verify_toast_position env).events).isPrefixOf
          ["http://localhost:3000"] = true)
    ∧ (∀ env : verify_toolbar.Env,
        (gotoUrls (verify_toolbar.verify_toolbar_accessibility env).events).isPrefixOf
          ["http://localhost:3001/#/test-toolbar"] = true)
    ∧ (∀ env : verify_transactions.Env,
        (gotoUrls (verify_transactions.run env).events).isPrefixOf
          ["http://localhost:3000/#/login?test=true"] = true) := by
  refine ⟨?_, ?_, ?_, ?_, ?_, ?_, ?_, ?_, ?_, ?_, ?_, ?_, ?_, ?_, ?_⟩
  · intro env; obtain ⟨a, b, c, d⟩ := env; revert a b c d; decide
  · intro env; obtain ⟨a, b, c, d⟩ := env; revert a b c d; decide
  · intro env; obtain ⟨a, b, c, d⟩ := env; revert a b c d; decide
  · intro env; obtain ⟨a, b, c, d, e⟩ := env; revert a b c d e; decide
  · intro env; obtain ⟨a, b, c, d⟩ := env; revert a b c d; decide
  · intro env; obtain ⟨a, b, c, d⟩ := env; revert a b c d; decide
  · intro env; obtain ⟨a, b, c, d, e, f, g, h⟩ := env; revert a b c d e f g h; decide
  · intro env; obtain ⟨a, b, c, d, e, f, g, h⟩ := env; revert a b c d e f g h; decide
  · intro env; obtain ⟨a, b⟩ := env; revert a b; decide
  · intro env; obtain ⟨a, b⟩ := env; revert a b; decide
  · intro env; obtain ⟨a, b, c, d⟩ := env; revert a b c d; decide
  · intro env; obtain ⟨a, b⟩ := env; revert a b; decide
  · intro env; obtain ⟨a, b, c, d, e, f⟩ := env; revert a b c d e f; decide
  · intro env; obtain ⟨a, b, c, d, e, f, g, h, i⟩ := env; revert a b c d e f g h i; decide
  · intro env; obtain ⟨a, b, c, d, e, f, g, h, i, j⟩ := env; revert a b c d e f g h i j; decide

/-- Witness for C9: a run whose primary navigation fails performs exactly
the primary attempt and one fallback to port 5173. -/
theorem header_fallback_navigation_unique_witness :
    gotoUrls (verify_header.run ⟨true, false, true, false⟩).events =
      ["http://localhost:3000", "http://localhost:5173"] :=
  header_fallback_navigation_unique.1 ⟨true, false, true, false⟩ rfl

end LifeBalance
